import Mathlib

/- Verification of the sniper-scope simulation core of this repository
   (src/index.tsx and the unnamed variant src/unnamed/part_000).
   JavaScript numbers are modelled as exact rationals, except where the
   source applies Math.sin, which is modelled over the reals with the sine
   function passed as a parameter. -/

inductive GState where
  | briefing
  | playing
  | success
  | failure
deriving DecidableEq

inductive EntityType where
  | HVT
  | Civilian
  | Bodyguard
  | Barrel
  | Crate
  | Intel
  | Glass
deriving DecidableEq

inductive Behavior where
  | static
  | pacing
  | erratic
  | flanking
deriving DecidableEq

inductive ObjType where
  | recon
  | destroy
  | eliminate
  | retrieve
deriving DecidableEq

/-- Entity record, index.tsx lines 9-23. -/
structure Entity where
  id : String
  x : ℚ
  y : ℚ
  z : ℚ
  speed : ℚ
  type : EntityType
  description : String
  isDead : Bool
  behavior : Behavior
  offset : ℚ
  health : ℚ
  isHostile : Bool
  lastFireTime : ℚ
deriving DecidableEq

/-- Particle record, index.tsx lines 25-33. -/
structure Particle where
  x : ℚ
  y : ℚ
  vx : ℚ
  vy : ℚ
  life : ℚ
  color : String
  size : ℚ
deriving DecidableEq

/-- Objective record, part_000 lines 34-38. -/
structure Objective where
  id : String
  type : ObjType
  description : String
deriving DecidableEq

/-- Mission record, index.tsx lines 43-50. -/
structure Mission where
  title : String
  briefing : String
  objectives : List Objective
  environment : String
  windSpeed : ℚ
  windDir : ℚ
deriving DecidableEq

structure Projection where
  rx : ℚ
  ry : ℚ
  scale : ℚ
deriving DecidableEq

/-- The projection computed by the renderer, index.tsx lines 337-339
    (canvas.width and canvas.height are set to the window size at lines
    288-289, so w and h denote the viewport size). -/
def renderProject (x y z mx my w h : ℚ) : Projection :=
  { rx := x - (mx - w / 2) * (1 - 400 / z)
    ry := y - (my - h / 2) * (1 - 400 / z)
    scale := 600 / z }

/-- The projection computed by the hit-test resolver, index.tsx lines 453-455. -/
def shootProject (x y z mx my w h : ℚ) : Projection :=
  { rx := x - (mx - w / 2) * (1 - 400 / z)
    ry := y - (my - h / 2) * (1 - 400 / z)
    scale := 600 / z }

/-- The click-inside-projected-box test of handleShoot, index.tsx lines
    453-460: Math.abs(dx) < 25 * scale and Math.abs(dy) < 50 * scale, where
    (dx, dy) is the offset of the impact point from the projected position. -/
def shootHit (w h mx my ix iy : ℚ) (ent : Entity) : Bool :=
  let p := shootProject ent.x ent.y ent.z mx my w h
  decide (|ix - p.rx| < 25 * p.scale) && decide (|iy - p.ry| < 50 * p.scale)

/-- Membership of a point in the projected box placed at the projection the
    renderer computes for the entity, with the same box extents as the hit
    test (half-width 25 times scale, half-height 50 times scale). -/
def insideRenderBox (w h mx my ix iy : ℚ) (ent : Entity) : Bool :=
  let p := renderProject ent.x ent.y ent.z mx my w h
  decide (|ix - p.rx| < 25 * p.scale) && decide (|iy - p.ry| < 50 * p.scale)

/-- Per-entity update of the map inside handleShoot, index.tsx lines 450-488
    (entity fields only; particle, chain-reaction and objective side effects
    are modelled separately). -/
def shootEntUpdate (w h mx my ix iy : ℚ) (ent : Entity) : Entity :=
  if ent.isDead && decide (ent.type ≠ EntityType.Barrel) then ent
  else if shootHit w h mx my ix iy ent && !ent.isDead then
    { ent with isDead := true, health := 0 }
  else ent

/-- The hit test of part_000 handleShoot, lines 309-312: same projection,
    box extents 30 times scale by 60 times scale. -/
def shootHitP0 (w h mx my ix iy : ℚ) (ent : Entity) : Bool :=
  let p := shootProject ent.x ent.y ent.z mx my w h
  decide (|ix - p.rx| < 30 * p.scale) && decide (|iy - p.ry| < 60 * p.scale)

/-- Per-entity update of the forEach inside part_000 handleShoot, lines
    307-314: dead entities are skipped, a struck living entity is marked
    dead. part_000 contains no chain-reaction step, so this is the only
    entity mutation a shot performs there. -/
def shootEntUpdateP0 (w h mx my ix iy : ℚ) (ent : Entity) : Entity :=
  if ent.isDead then ent
  else if shootHitP0 w h mx my ix iy ent then { ent with isDead := true }
  else ent

/-- Keep the last n elements of a list, as Array.prototype.slice with a
    negative index does. -/
def lastN (n : ℕ) (l : List Particle) : List Particle :=
  l.drop (l.length - n)

/-- createParticles, index.tsx lines 229-242; the Math.random draws are
    supplied by the stream rnd, and the live set is capped at the last 100
    entries (slice(-100), line 241). -/
def createParticles (rnd : ℕ → ℚ × ℚ) (x y : ℚ) (color : String) (count : ℕ) (size : ℚ)
    (prev : List Particle) : List Particle :=
  lastN 100 (prev ++ (List.range count).map fun i =>
    { x := x, y := y
      vx := ((rnd i).1 - 1 / 2) * 10
      vy := ((rnd i).2 - 1 / 2) * 10
      life := 1, color := color, size := size })

/-- createParticles of part_000, lines 179-191: same burst, cap 200 (the
    splice call keeps the last 200 entries). -/
def createParticlesP0 (rnd : ℕ → ℚ × ℚ) (x y : ℚ) (color : String) (count : ℕ) (size : ℚ)
    (prev : List Particle) : List Particle :=
  lastN 200 (prev ++ (List.range count).map fun i =>
    { x := x, y := y
      vx := ((rnd i).1 - 1 / 2) * 10
      vy := ((rnd i).2 - 1 / 2) * 10
      life := 1, color := color, size := size })

/-- The simulation state touched by handleShoot. -/
structure SimSt where
  gameState : GState
  entities : List Entity
  particles : List Particle
  shotsFired : ℕ
  screenShake : ℚ
deriving DecidableEq

/-- handleShoot, index.tsx lines 436-496. The early return at line 437
    guards everything; otherwise the shot counter increments, screen shake is
    set (10, or 40 when a living barrel is struck, line 468), every entity
    goes through shootEntUpdate, and particles are spawned per hit (or a
    white ricochet burst on a miss). The deferred chain-reaction the barrel
    branch schedules is modelled by chainReaction below. -/
def handleShoot (rnd : ℕ → ℚ × ℚ) (w h mx my sx sy : ℚ) (s : SimSt) : SimSt :=
  if s.gameState ≠ GState.playing then s
  else
    let ix := w / 2 + sx
    let iy := h / 2 + sy
    let hitOccurred := s.entities.any fun ent => !ent.isDead && shootHit w h mx my ix iy ent
    let anyBarrel := s.entities.any fun ent =>
      !ent.isDead && shootHit w h mx my ix iy ent && decide (ent.type = EntityType.Barrel)
    let ps := s.entities.foldl (fun acc ent =>
      if !ent.isDead && shootHit w h mx my ix iy ent then
        let acc1 := createParticles rnd ix iy
          (if ent.type = EntityType.Barrel then "#ffaa00" else "#ff0000") 15 2 acc
        if ent.type = EntityType.Barrel then createParticles rnd ix iy "#ff5500" 40 5 acc1
        else acc1
      else acc) s.particles
    { gameState := s.gameState
      entities := s.entities.map (shootEntUpdate w h mx my ix iy)
      particles := if hitOccurred then ps else createParticles rnd ix iy "#ffffff" 3 1 s.particles
      shotsFired := s.shotsFired + 1
      screenShake := if anyBarrel then 40 else 10 }

/-- handleShoot of part_000, lines 300-329: early return when not playing
    (line 301), screen shake 15, one pass over the entities with
    shootEntUpdateP0, red burst per hit or white ricochet on a miss
    (part_000 has no shot counter, so shotsFired is untouched). -/
def handleShootP0 (rnd : ℕ → ℚ × ℚ) (w h mx my sx sy : ℚ) (s : SimSt) : SimSt :=
  if s.gameState ≠ GState.playing then s
  else
    let ix := w / 2 + sx
    let iy := h / 2 + sy
    let hit := s.entities.any fun ent => !ent.isDead && shootHitP0 w h mx my ix iy ent
    let ps := s.entities.foldl (fun acc ent =>
      if !ent.isDead && shootHitP0 w h mx my ix iy ent then
        createParticlesP0 rnd ix iy "#f00" 15 2 acc
      else acc) s.particles
    { gameState := s.gameState
      entities := s.entities.map (shootEntUpdateP0 w h mx my ix iy)
      particles := if hit then ps else createParticlesP0 rnd ix iy "#fff" 3 1 s.particles
      shotsFired := s.shotsFired
      screenShake := 15 }

/-- Body of the deferred chain-reaction map, index.tsx lines 472-476, applied
    to one entity: the test Math.hypot(ent.x - other.x, ent.y - other.y) < 300
    is written in the equivalent squared form (both sides are nonnegative; see
    hypot_lt_iff_sq below). -/
def chainKill (ent other : Entity) : Entity :=
  if (ent.x - other.x) ^ 2 + (ent.y - other.y) ^ 2 < 300 ^ 2 ∧ other.id ≠ ent.id then
    { other with isDead := true }
  else other

/-- The full deferred chain-reaction update of index.tsx lines 471-477,
    applied to the entity roster 50 ms after a barrel hit. -/
def chainReaction (ent : Entity) (es : List Entity) : List Entity :=
  es.map (chainKill ent)

/-- The setTimeout callback of index.tsx lines 471-477 exactly as written:
    its body never consults the game state, which is therefore an ignored
    parameter here. -/
def chainCallback (_gs : GState) (ent : Entity) (es : List Entity) : List Entity :=
  es.map (chainKill ent)

/-- Objective progress state: gs is the game state, idx the current objective
    index, nObjs the length of mission.objectives. -/
structure ObjSt where
  gs : GState
  idx : ℕ
  nObjs : ℕ
deriving DecidableEq

/-- advanceObjective, index.tsx lines 498-508 (the same logic appears inline
    in part_000 lines 317-325). -/
def advanceObjective (s : ObjSt) : ObjSt :=
  if s.idx + 1 ≥ s.nObjs then { s with gs := GState.success }
  else { s with idx := s.idx + 1 }

/-- The category-to-objective matching of handleShoot, index.tsx lines
    479-483: barrel with destroy, intel with retrieve, HVT with eliminate. -/
def satisfyingHit (ty : EntityType) (obj : Option ObjType) : Bool :=
  (decide (ty = EntityType.Barrel) && decide (obj = some ObjType.destroy)) ||
  (decide (ty = EntityType.Intel) && decide (obj = some ObjType.retrieve)) ||
  (decide (ty = EntityType.HVT) && decide (obj = some ObjType.eliminate))

/-- Objective adjudication for one struck living entity: index.tsx lines
    479-483 invoke advanceObjective exactly when the struck category matches
    the active objective kind. -/
def hitObjStep (ty : EntityType) (obj : Option ObjType) (s : ObjSt) : ObjSt :=
  if satisfyingHit ty obj then advanceObjective s else s

/-- One hostile-fire deduction, index.tsx line 328:
    setPlayerHealth(prev, Math.max(0, prev - 10)). -/
def fireDamage (health : ℤ) : ℤ := max 0 (health - 10)

/-- One hostile-fire deduction of part_000, line 258:
    playerHealthRef.current -= 10, with no floor. -/
def fireDamageP0 (health : ℤ) : ℤ := health - 10

structure HealthSt where
  gs : GState
  health : ℤ
deriving DecidableEq

/-- Health and game-state part of one frame of the index.tsx render loop: the
    effect runs only while playing (line 277), each hostile fire this frame
    deducts 10 floored at 0 (line 328), and the end-of-frame check (lines
    424-427) sets failure once health is at or below 0. -/
def healthTick (fires : ℕ) (s : HealthSt) : HealthSt :=
  if s.gs ≠ GState.playing then s
  else
    { gs := if fireDamage^[fires] s.health ≤ 0 then GState.failure else s.gs
      health := fireDamage^[fires] s.health }

/-- Health and game-state part of one frame of the part_000 render loop
    (guard at line 220, deduction at line 258, failure check at line 293). -/
def healthTickP0 (fires : ℕ) (s : HealthSt) : HealthSt :=
  if s.gs ≠ GState.playing then s
  else
    { gs := if fireDamageP0^[fires] s.health ≤ 0 then GState.failure else s.gs
      health := fireDamageP0^[fires] s.health }

/-- States of index.tsx reachable from the initial state (health starts at
    MAX_PLAYER_HEALTH = 100 in the briefing screen): the briefing button
    starts play, frames run healthTick, and a completed objective list moves
    a playing state to success. -/
inductive Reach : HealthSt → Prop where
  | init : Reach { gs := GState.briefing, health := 100 }
  | start (h : ℤ) : Reach { gs := GState.briefing, health := h } →
      Reach { gs := GState.playing, health := h }
  | tick (f : ℕ) (s : HealthSt) : Reach s → Reach (healthTick f s)
  | succeed (h : ℤ) : Reach { gs := GState.playing, health := h } →
      Reach { gs := GState.success, health := h }

/-- States of part_000 reachable from its initial state. part_000 spawns
    exactly one hostile (guard-1, line 170) whose 3000 ms cooldown (line 255)
    allows at most one deduction per frame, hence the bound on fires. -/
inductive ReachP0 : HealthSt → Prop where
  | init : ReachP0 { gs := GState.briefing, health := 100 }
  | start (h : ℤ) : ReachP0 { gs := GState.briefing, health := h } →
      ReachP0 { gs := GState.playing, health := h }
  | tick (f : ℕ) (s : HealthSt) : f ≤ 1 → ReachP0 s → ReachP0 (healthTickP0 f s)
  | succeed (h : ℤ) : ReachP0 { gs := GState.playing, health := h } →
      ReachP0 { gs := GState.success, health := h }

/-- Invariant carried through the part_000 reachability induction. -/
def P0Inv (s : HealthSt) : Prop :=
  0 ≤ s.health ∧ s.health ≤ 100 ∧ (10 : ℤ) ∣ s.health ∧
  (s.gs = GState.briefing → s.health = 100) ∧
  (s.gs = GState.playing → 0 < s.health)

/-- Per-particle advance of one frame: index.tsx lines 371-376 and part_000
    line 277 (x += vx, y += vy, life -= 0.02; the decrement 0.02 is the exact
    rational 1/50 here). -/
def particleAdvance (p : Particle) : Particle :=
  { p with x := p.x + p.vx, y := p.y + p.vy, life := p.life - 1 / 50 }

/-- The index.tsx particle frame step, lines 371-376: the live set is first
    culled of particles with life at or below 0, then every survivor is
    advanced. -/
def particlesTick (ps : List Particle) : List Particle :=
  (ps.filter fun p => decide (p.life > 0)).map particleAdvance

/-- The part_000 particle frame step, lines 276-280: every particle is
    advanced first, then the set is culled. -/
def particlesTickP0 (ps : List Particle) : List Particle :=
  (ps.map particleAdvance).filter fun p => decide (p.life > 0)

/-- Depth component of one flanking step in index.tsx, lines 319-321:
    z -= 0.5, then reset to 1000 when z dropped under 400. The x drift on
    line 320 does not touch z. -/
def flankingStepZ (z : ℚ) : ℚ :=
  if z - 1 / 2 < 400 then 1000 else z - 1 / 2

/-- Depth component of one flanking step in part_000, line 254: z -= 0.5 and
    nothing else; the file has no reset. -/
def flankingStepZP0 (z : ℚ) : ℚ := z - 1 / 2

/-- Pacing step, index.tsx line 317 and part_000 line 253:
    ent.x += Math.sin(time + ent.offset) * ent.speed. The sine function is a
    parameter; theorems instantiate it with Real.sin. -/
def pacingStep (sine : ℝ → ℝ) (time offset speed x : ℝ) : ℝ :=
  x + sine (time + offset) * speed

/-- Modelled from the spec: the pacing position as the spec describes it, x
    at time t equal to the spawn x plus the sinusoidal term in t and the
    phase offset, scaled by speed (for comparison with the accumulating step
    the source actually performs). -/
def specPacingX (sine : ℝ → ℝ) (spawnX time offset speed : ℝ) : ℝ :=
  spawnX + sine (time + offset) * speed

/-- The deterministic fallback mission of part_000, lines 141-151. -/
def fallbackMission : Mission :=
  { title := "SILENT ECHO"
    briefing := "API Connection lost. Proceeding with emergency tactical protocols. Clear the sector."
    objectives :=
      [ { id := "fb-obj-1", type := ObjType.eliminate, description := "Eliminate the rooftop guard." }
      , { id := "fb-obj-2", type := ObjType.destroy, description := "Destroy the fuel barrels." } ]
    environment := "urban"
    windSpeed := 5
    windDir := 90 }

/-- Mission installation of index.tsx generateMission, lines 108-151: a
    successful response installs the parsed mission; the catch block (lines
    147-150) only logs and clears the loading flag, leaving the mission
    unset. -/
def generateMission (resp : Option Mission) : Option Mission :=
  match resp with
  | some data => some data
  | none => none

/-- Mission installation of part_000 generateMission, lines 93-155: the catch
    block (lines 136-154) installs fallbackMission. -/
def generateMissionP0 (resp : Option Mission) : Option Mission :=
  match resp with
  | some data => some data
  | none => some fallbackMission

/-- Concrete living HVT used by the C1 witness (the hvt-1 spawn of index.tsx
    lines 157-171, with a fixed x). -/
def cEnt : Entity :=
  { id := "hvt-1", x := 500, y := 400, z := 600, speed := 2, type := EntityType.HVT
    description := "The High Value Target", isDead := false, behavior := Behavior.pacing
    offset := 0, health := 100, isHostile := false, lastFireTime := 0 }

/-- Concrete exploded barrel used by the C6 witness. -/
def cBarrel6 : Entity :=
  { id := "barrel-0", x := 300, y := 500, z := 600, speed := 0, type := EntityType.Barrel
    description := "Explosive chemical drum", isDead := true, behavior := Behavior.static
    offset := 0, health := 0, isHostile := false, lastFireTime := 0 }

/-- Concrete entity at planar distance 600 from cBarrel6, outside the blast
    radius. -/
def cFar6 : Entity :=
  { id := "hvt-1", x := 900, y := 500, z := 800, speed := 2, type := EntityType.HVT
    description := "The High Value Target", isDead := false, behavior := Behavior.pacing
    offset := 0, health := 100, isHostile := false, lastFireTime := 0 }

/-- Concrete exploded barrel used by the C9 theorem. -/
def cBarrel9 : Entity :=
  { id := "barrel-1", x := 300, y := 550, z := 700, speed := 0, type := EntityType.Barrel
    description := "Explosive chemical drum", isDead := true, behavior := Behavior.static
    offset := 0, health := 0, isHostile := false, lastFireTime := 0 }

/-- Concrete living entity at planar distance 100 from cBarrel9, inside the
    blast radius. -/
def cNear9 : Entity :=
  { id := "intel-1", x := 400, y := 550, z := 650, speed := 0, type := EntityType.Intel
    description := "Encrypted data drive", isDead := false, behavior := Behavior.static
    offset := 0, health := 10, isHostile := false, lastFireTime := 0 }

/-- Concrete living barrel struck dead-centre in the C6 counterexample
    (viewport 1000 by 800, mouse and impact at the centre, so the projected
    position equals the world position and scale is 1). -/
def cBarrelC : Entity :=
  { id := "barrel-2", x := 500, y := 400, z := 600, speed := 0, type := EntityType.Barrel
    description := "Explosive chemical drum", isDead := false, behavior := Behavior.static
    offset := 0, health := 1, isHostile := false, lastFireTime := 0 }

/-- Concrete living entity at planar distance 100 from cBarrelC (inside the
    blast radius) whose projected box does not contain the impact point. -/
def cNearC : Entity :=
  { id := "intel-2", x := 600, y := 400, z := 600, speed := 0, type := EntityType.Intel
    description := "Encrypted data drive", isDead := false, behavior := Behavior.static
    offset := 0, health := 10, isHostile := false, lastFireTime := 0 }

/-- Concrete particle whose life reaches 0 on the next tick. -/
def cPart : Particle :=
  { x := 0, y := 0, vx := 0, vy := 0, life := 1 / 50, color := "#ffffff", size := 2 }

/-- cPart after one advance: life exactly 0. -/
def cPartAfter : Particle :=
  { x := 0, y := 0, vx := 0, vy := 0, life := 0, color := "#ffffff", size := 2 }

/-- Concrete fresh particle (life 1) for the C7 witness. -/
def cPartA : Particle :=
  { x := 0, y := 0, vx := 0, vy := 0, life := 1, color := "#ffffff", size := 2 }

/-- cPartA after one advance. -/
def cPartB : Particle :=
  { x := 0, y := 0, vx := 0, vy := 0, life := 49 / 50, color := "#ffffff", size := 2 }

/-- Concrete briefing-screen simulation state for the C10 witness. -/
def cSim : SimSt :=
  { gameState := GState.briefing, entities := [cEnt], particles := [], shotsFired := 0
    screenShake := 0 }

/-- Concrete random stream for the C10 witness. -/
def cRnd : ℕ → ℚ × ℚ := fun _ => (1 / 2, 1 / 2)

/- ------------------------------------------------------------------ -/
/- Helper lemmas.                                                     -/
/- ------------------------------------------------------------------ -/

/-- Justification for the squared form of the blast test used in chainKill:
    for a positive radius, Math.hypot(a, b) < r is the comparison
    sqrt(a^2 + b^2) < r, which is equivalent to a^2 + b^2 < r^2. -/
theorem hypot_lt_iff_sq (a b r : ℝ) (hr : 0 < r) :
    Real.sqrt (a ^ 2 + b ^ 2) < r ↔ a ^ 2 + b ^ 2 < r ^ 2 :=
  Real.sqrt_lt' hr

theorem fireDamage_bounds (h : ℤ) (h0 : 0 ≤ h) : 0 ≤ fireDamage h ∧ fireDamage h ≤ h := by
  unfold fireDamage
  exact ⟨le_max_left _ _, max_le h0 (by omega)⟩

theorem fireDamage_iter_bounds (f : ℕ) (h : ℤ) (h0 : 0 ≤ h) :
    0 ≤ fireDamage^[f] h ∧ fireDamage^[f] h ≤ h := by
  induction f generalizing h with
  | zero =>
    simp only [Function.iterate_zero_apply]
    exact ⟨h0, le_refl h⟩
  | succ n ih =>
    rw [Function.iterate_succ_apply]
    obtain ⟨hd0, hdle⟩ := fireDamage_bounds h h0
    obtain ⟨hi0, hile⟩ := ih (fireDamage h) hd0
    exact ⟨hi0, le_trans hile hdle⟩

theorem fireDamage_iter_nonpos (f : ℕ) (h : ℤ) (h0 : h ≤ 0) : fireDamage^[f] h ≤ 0 := by
  cases f with
  | zero => simpa using h0
  | succ n =>
    rw [Function.iterate_succ_apply]
    have hd : fireDamage h = 0 := by
      unfold fireDamage
      exact max_eq_left (by omega)
    rw [hd]
    exact (fireDamage_iter_bounds n 0 le_rfl).2

theorem reach_health_bounds (s : HealthSt) (hs : Reach s) :
    0 ≤ s.health ∧ s.health ≤ 100 := by
  induction hs with
  | init => exact ⟨by norm_num, by norm_num⟩
  | start h hr ih => exact ih
  | tick f s hr ih =>
    by_cases hgs : s.gs = GState.playing
    · have hne : ¬ s.gs ≠ GState.playing := by simp [hgs]
      unfold healthTick
      rw [if_neg hne]
      exact ⟨(fireDamage_iter_bounds f s.health ih.1).1,
        le_trans (fireDamage_iter_bounds f s.health ih.1).2 ih.2⟩
    · unfold healthTick
      rw [if_pos hgs]
      exact ih
  | succeed h hr ih => exact ih

theorem healthTickP0_playing (f : ℕ) (hv : ℤ) :
    healthTickP0 f (HealthSt.mk GState.playing hv) =
      HealthSt.mk (if fireDamageP0^[f] hv ≤ 0 then GState.failure else GState.playing)
        (fireDamageP0^[f] hv) := by
  unfold healthTickP0
  rw [if_neg (by simp)]

theorem reachP0_inv (s : HealthSt) (hs : ReachP0 s) : P0Inv s := by
  induction hs with
  | init =>
    exact ⟨by norm_num, by norm_num, by norm_num, fun _ => rfl, fun _ => by norm_num⟩
  | start h hr ih =>
    have h100 : h = 100 := ih.2.2.2.1 rfl
    refine ⟨ih.1, ih.2.1, ih.2.2.1, fun hb => GState.noConfusion hb, fun _ => ?_⟩
    show (0 : ℤ) < h
    omega
  | tick f s hf hr ih =>
    obtain ⟨gs, hv⟩ := s
    by_cases hgs : gs = GState.playing
    · subst hgs
      have hpos : 0 < hv := ih.2.2.2.2 rfl
      have hdvd : (10 : ℤ) ∣ hv := ih.2.2.1
      have h10 : 10 ≤ hv := Int.le_of_dvd hpos hdvd
      have h100 : hv ≤ 100 := ih.2.1
      rw [healthTickP0_playing]
      rcases Nat.le_one_iff_eq_zero_or_eq_one.mp hf with rfl | rfl
      · simp only [Function.iterate_zero_apply]
        rw [if_neg (by omega : ¬ hv ≤ 0)]
        exact ih
      · simp only [Function.iterate_one]
        unfold fireDamageP0
        by_cases hle : hv - 10 ≤ 0
        · rw [if_pos hle]
          exact ⟨show (0 : ℤ) ≤ hv - 10 by omega, show hv - 10 ≤ 100 by omega,
            dvd_sub hdvd dvd_rfl, fun hb => GState.noConfusion hb,
            fun hp => GState.noConfusion hp⟩
        · rw [if_neg hle]
          exact ⟨show (0 : ℤ) ≤ hv - 10 by omega, show hv - 10 ≤ 100 by omega,
            dvd_sub hdvd dvd_rfl, fun hb => GState.noConfusion hb,
            fun _ => show (0 : ℤ) < hv - 10 by omega⟩
    · unfold healthTickP0
      rw [if_pos hgs]
      exact ih
  | succeed h hr ih =>
    exact ⟨ih.1, ih.2.1, ih.2.2.1, fun hb => GState.noConfusion hb,
      fun hp => GState.noConfusion hp⟩

/- ------------------------------------------------------------------ -/
/- Claim theorems.                                                    -/
/- ------------------------------------------------------------------ -/

/-- C1: for identical inputs (entity world position, pointer position,
    viewport size) the projection used by the renderer (index.tsx lines
    337-339) and the projection used by the hit-test resolver (lines 453-455)
    coincide, and any point inside the render-time projected box of a living
    entity is reported as a hit: the hit predicate holds and the shot map
    marks the entity dead. -/
theorem render_hit_projection_agree (ent : Entity) (w h mx my ix iy : ℚ) :
    renderProject ent.x ent.y ent.z mx my w h = shootProject ent.x ent.y ent.z mx my w h ∧
    (ent.isDead = false → insideRenderBox w h mx my ix iy ent = true →
      shootHit w h mx my ix iy ent = true ∧
      (shootEntUpdate w h mx my ix iy ent).isDead = true) := by
  refine ⟨rfl, fun hd hb => ?_⟩
  have hhit : shootHit w h mx my ix iy ent = true := hb
  refine ⟨hhit, ?_⟩
  unfold shootEntUpdate
  simp [hd, hhit]

/-- C1 witness: a concrete living entity projected at the viewport centre is
    inside its render-time box there and is killed by the shot map. -/
theorem render_hit_projection_agree_witness :
    cEnt.isDead = false ∧
    insideRenderBox 1000 800 500 400 500 400 cEnt = true ∧
    shootHit 1000 800 500 400 500 400 cEnt = true ∧
    (shootEntUpdate 1000 800 500 400 500 400 cEnt).isDead = true :=
  ⟨rfl, by norm_num [insideRenderBox, renderProject, cEnt],
    ((render_hit_projection_agree cEnt 1000 800 500 400 500 400).2 rfl
      (by norm_num [insideRenderBox, renderProject, cEnt])).1,
    ((render_hit_projection_agree cEnt 1000 800 500 400 500 400).2 rfl
      (by norm_num [insideRenderBox, renderProject, cEnt])).2⟩

/-- C2: the index.tsx flanking step (lines 319-321) keeps z at or above 400,
    but the part_000 flanking step (line 254) has no reset: starting from the
    guard-1 spawn depth 700, 1400 ticks drive z to exactly 0, so z does reach
    0 there and the divisions 600/z and 400/z are no longer well-defined,
    contrary to the claim. -/
theorem flanking_depth_bug :
    (∀ z : ℚ, 400 ≤ flankingStepZ z ∧ 0 < flankingStepZ z) ∧
    flankingStepZP0^[1400] (700 : ℚ) = 0 := by
  constructor
  · intro z
    unfold flankingStepZ
    by_cases hz : z - 1 / 2 < 400
    · rw [if_pos hz]
      norm_num
    · rw [if_neg hz]
      constructor
      · linarith [not_lt.mp hz]
      · linarith [not_lt.mp hz]
  · have hiter : ∀ n : ℕ, ∀ z : ℚ, flankingStepZP0^[n] z = z - n / 2 := by
      intro n
      induction n with
      | zero => intro z; simp
      | succ m ih =>
        intro z
        rw [Function.iterate_succ_apply, ih]
        unfold flankingStepZP0
        push_cast
        ring
    rw [hiter]
    norm_num

/-- C3: along every reachable state of index.tsx, player health stays in
    [0, 100]; a frame in the failure state is a no-op (the render effect only
    runs while playing), so the transition fires exactly once; and a playing
    frame with health at or below 0 transitions to failure. The same bounds
    and failure-idempotence hold for the reachable states of part_000, whose
    unfloored deduction never drives health negative because health is always
    a multiple of 10. -/
theorem player_health_bounds_failure_once (s : HealthSt) (hs : Reach s) :
    (0 ≤ s.health ∧ s.health ≤ 100) ∧
    (∀ f, s.gs = GState.failure → healthTick f s = s) ∧
    (∀ f, s.gs = GState.playing → s.health ≤ 0 → (healthTick f s).gs = GState.failure) ∧
    (∀ s2, ReachP0 s2 →
      (0 ≤ s2.health ∧ s2.health ≤ 100) ∧
      (∀ f, s2.gs = GState.failure → healthTickP0 f s2 = s2)) := by
  refine ⟨reach_health_bounds s hs, ?_, ?_, ?_⟩
  · intro f hgs
    unfold healthTick
    rw [if_pos (by simp [hgs])]
  · intro f hgs hle
    unfold healthTick
    rw [if_neg (by simp [hgs])]
    show (if fireDamage^[f] s.health ≤ 0 then GState.failure else s.gs) = GState.failure
    rw [if_pos (fireDamage_iter_nonpos f s.health hle)]
  · intro s2 hs2
    have hinv := reachP0_inv s2 hs2
    refine ⟨⟨hinv.1, hinv.2.1⟩, ?_⟩
    intro f hgs
    unfold healthTickP0
    rw [if_pos (by simp [hgs])]

/-- C3 witness: the theorem applied at the initial state. -/
theorem player_health_bounds_failure_once_witness :
    0 ≤ (HealthSt.mk GState.briefing 100).health ∧
    (HealthSt.mk GState.briefing 100).health ≤ 100 :=
  (player_health_bounds_failure_once (HealthSt.mk GState.briefing 100) Reach.init).1

/-- C4: one objective adjudication (hitObjStep, index.tsx lines 479-483 with
    advanceObjective, lines 498-508) never decreases the index, increases it
    by at most one, keeps it under the objective count, turns a satisfying
    hit on the last objective into the success transition with the index
    unchanged, increments the index by exactly one on a satisfying non-final
    hit, and leaves the state untouched on a non-satisfying hit. -/
theorem objective_index_step (ty : EntityType) (obj : Option ObjType) (s : ObjSt) :
    s.idx ≤ (hitObjStep ty obj s).idx ∧
    (hitObjStep ty obj s).idx ≤ s.idx + 1 ∧
    (hitObjStep ty obj s).nObjs = s.nObjs ∧
    (s.idx < s.nObjs → (hitObjStep ty obj s).idx < s.nObjs) ∧
    (satisfyingHit ty obj = true → s.nObjs ≤ s.idx + 1 →
      hitObjStep ty obj s = { s with gs := GState.success }) ∧
    (satisfyingHit ty obj = true → s.idx + 1 < s.nObjs →
      hitObjStep ty obj s = { s with idx := s.idx + 1 }) ∧
    (satisfyingHit ty obj = false → hitObjStep ty obj s = s) := by
  unfold hitObjStep advanceObjective
  by_cases hsat : satisfyingHit ty obj = true
  · rw [if_pos hsat]
    by_cases hn : s.idx + 1 ≥ s.nObjs
    · rw [if_pos hn]
      exact ⟨le_refl s.idx, Nat.le_succ s.idx, rfl, fun hlt => hlt, fun _ _ => rfl,
        fun _ hlt => absurd hlt (by omega),
        fun hfalse => absurd hsat (by rw [hfalse]; exact fun hc => Bool.noConfusion hc)⟩
    · rw [if_neg hn]
      exact ⟨Nat.le_succ s.idx, le_refl (s.idx + 1), rfl,
        fun _ => show s.idx + 1 < s.nObjs by omega,
        fun _ hge => absurd hge (by omega), fun _ _ => rfl,
        fun hfalse => absurd hsat (by rw [hfalse]; exact fun hc => Bool.noConfusion hc)⟩
  · rw [if_neg hsat]
    exact ⟨le_refl s.idx, Nat.le_succ s.idx, rfl, fun hlt => hlt,
      fun htrue => absurd htrue hsat, fun htrue => absurd htrue hsat, fun _ => rfl⟩

/-- C4 witness: a satisfying barrel hit on the last objective of a
    one-objective mission transitions to success with the index unchanged. -/
theorem objective_index_step_witness :
    satisfyingHit EntityType.Barrel (some ObjType.destroy) = true ∧
    hitObjStep EntityType.Barrel (some ObjType.destroy) (ObjSt.mk GState.playing 0 1) =
      ObjSt.mk GState.success 0 1 :=
  ⟨by decide,
    (objective_index_step EntityType.Barrel (some ObjType.destroy)
      (ObjSt.mk GState.playing 0 1)).2.2.2.2.1 (by decide) (by decide)⟩

/-- C6 counterexample: the claim fails on part_000, which implements no chain
    reaction at all. With viewport 1000 by 800, pointer and impact at the
    centre, the barrel cBarrelC is struck and dies, the living entity cNearC
    sits at planar distance 100 (inside the blast radius 300) with a distinct
    id, yet the shot pass of part_000, the only entity mutation a shot
    performs there, leaves cNearC alive. -/
theorem chain_missing_in_part000_cex :
    shootHitP0 1000 800 500 400 500 400 cBarrelC = true ∧
    (shootEntUpdateP0 1000 800 500 400 500 400 cBarrelC).isDead = true ∧
    (cBarrelC.x - cNearC.x) ^ 2 + (cBarrelC.y - cNearC.y) ^ 2 < 300 ^ 2 ∧
    (cNearC.id == cBarrelC.id) = false ∧
    (shootEntUpdateP0 1000 800 500 400 500 400 cNearC).isDead = false := by
  refine ⟨?_, ?_, ?_, ?_, ?_⟩
  · norm_num [shootHitP0, shootProject, cBarrelC]
  · norm_num [shootEntUpdateP0, shootHitP0, shootProject, cBarrelC]
  · norm_num [cBarrelC, cNearC]
  · rfl
  · norm_num [shootEntUpdateP0, shootHitP0, shootProject, cNearC]

/-- C6 (amended): in index.tsx the deferred chain-reaction map kills exactly
    the right set: an entity is dead after chainKill iff it was already dead
    or lies at squared planar distance under 300^2 from the barrel with a
    different id; ids are preserved; entities at distance at least 300, and
    the barrel itself, pass through unchanged. In part_000 a shot kills
    exactly the directly struck living entities and nothing else. -/
theorem barrel_chain_exact_set (b o : Entity) (es : List Entity) (w h mx my ix iy : ℚ) :
    chainReaction b es = es.map (chainKill b) ∧
    ((chainKill b o).isDead = true ↔
      (o.isDead = true ∨ ((b.x - o.x) ^ 2 + (b.y - o.y) ^ 2 < 300 ^ 2 ∧ o.id ≠ b.id))) ∧
    (chainKill b o).id = o.id ∧
    (300 ^ 2 ≤ (b.x - o.x) ^ 2 + (b.y - o.y) ^ 2 → chainKill b o = o) ∧
    (o.id = b.id → chainKill b o = o) ∧
    ((shootEntUpdateP0 w h mx my ix iy o).isDead = true ↔
      (o.isDead = true ∨ shootHitP0 w h mx my ix iy o = true)) := by
  refine ⟨rfl, ?_, ?_, ?_, ?_, ?_⟩
  · unfold chainKill
    by_cases hc : (b.x - o.x) ^ 2 + (b.y - o.y) ^ 2 < 300 ^ 2 ∧ o.id ≠ b.id
    · rw [if_pos hc]
      exact iff_of_true rfl (Or.inr hc)
    · rw [if_neg hc]
      exact (or_iff_left hc).symm
  · unfold chainKill
    by_cases hc : (b.x - o.x) ^ 2 + (b.y - o.y) ^ 2 < 300 ^ 2 ∧ o.id ≠ b.id
    · rw [if_pos hc]
    · rw [if_neg hc]
  · intro hge
    unfold chainKill
    rw [if_neg (fun hc => absurd hc.1 (not_lt.mpr hge))]
  · intro hid
    unfold chainKill
    rw [if_neg (fun hc => absurd hid hc.2)]
  · unfold shootEntUpdateP0
    by_cases hd : o.isDead
    · rw [if_pos hd]
      simp [hd]
    · rw [if_neg hd]
      by_cases hh : shootHitP0 w h mx my ix iy o = true
      · rw [if_pos hh]
        simp [hh]
      · rw [if_neg hh]
        simp only [Bool.not_eq_true] at hd hh
        simp [hd, hh]

/-- C6 witness: a concrete entity at planar distance 600 from the exploded
    barrel is untouched by the chain-reaction map. -/
theorem barrel_chain_exact_set_witness :
    (300 : ℚ) ^ 2 ≤ (cBarrel6.x - cFar6.x) ^ 2 + (cBarrel6.y - cFar6.y) ^ 2 ∧
    chainKill cBarrel6 cFar6 = cFar6 :=
  ⟨by norm_num [cBarrel6, cFar6],
    (barrel_chain_exact_set cBarrel6 cFar6 [] 1000 800 500 400 500 400).2.2.2.1
      (by norm_num [cBarrel6, cFar6])⟩

/-- C7 counterexample: in index.tsx a particle is culled before the decrement,
    so a particle whose life reaches 0 during a tick is still in the live set
    after that tick. Concretely, a particle with life 1/50 survives the tick
    in which its life becomes 0, contradicting removal exactly at the first
    tick at which life is at or below 0. -/
theorem particle_linger_cex :
    cPart.life > 0 ∧ particlesTick [cPart] = [cPartAfter] ∧ cPartAfter.life ≤ 0 :=
  ⟨by norm_num [cPart],
    by simp [particlesTick, particleAdvance, cPart, cPartAfter],
    by norm_num [cPartAfter]⟩

/-- C7 (amended): the index.tsx tick (cull, then advance) contains exactly
    the advances of the particles that began the tick with positive life, so
    a particle with life at or below 0 at the start of a tick is removed in
    that tick (one tick after its life reached 0) and no particle with
    positive life at the start of a tick is removed; life strictly decreases
    by exactly 1/50 per advance. The part_000 tick (advance, then cull)
    satisfies the original claim: its result holds exactly the advanced
    particles whose new life is positive. -/
theorem particles_tick_cull_then_decrement (ps : List Particle) (q : Particle) :
    (q ∈ particlesTick ps ↔ ∃ p, p ∈ ps ∧ p.life > 0 ∧ q = particleAdvance p) ∧
    (particleAdvance q).life = q.life - 1 / 50 ∧
    (particleAdvance q).life < q.life ∧
    (q ∈ particlesTickP0 ps ↔ ∃ p, p ∈ ps ∧ q = particleAdvance p ∧ q.life > 0) := by
  refine ⟨?_, rfl, ?_, ?_⟩
  · constructor
    · intro hq
      rcases List.mem_map.mp hq with ⟨p, hp, rfl⟩
      rcases List.mem_filter.mp hp with ⟨hmem, hlife⟩
      exact ⟨p, hmem, by simpa using hlife, rfl⟩
    · rintro ⟨p, hmem, hlife, rfl⟩
      exact List.mem_map.mpr ⟨p, List.mem_filter.mpr ⟨hmem, by simpa using hlife⟩, rfl⟩
  · have hl : (particleAdvance q).life = q.life - 1 / 50 := rfl
    rw [hl]
    exact sub_lt_self _ (by norm_num)
  · constructor
    · intro hq
      rcases List.mem_filter.mp hq with ⟨hmap, hlife⟩
      rcases List.mem_map.mp hmap with ⟨p, hp, rfl⟩
      exact ⟨p, hp, rfl, by simpa using hlife⟩
    · rintro ⟨p, hp, rfl, hlife⟩
      exact List.mem_filter.mpr ⟨List.mem_map.mpr ⟨p, hp, rfl⟩, by simpa using hlife⟩

/-- C7 witness: a fresh particle survives the part_000 tick and its advanced
    form has positive life, via the membership characterisation. -/
theorem particles_tick_cull_then_decrement_witness :
    cPartB ∈ particlesTickP0 [cPartA] ∧
    ∃ p, p ∈ [cPartA] ∧ cPartB = particleAdvance p ∧ cPartB.life > 0 :=
  ⟨by norm_num [particlesTickP0, particleAdvance, cPartA, cPartB],
    (particles_tick_cull_then_decrement [cPartA] cPartB).2.2.2.mp
      (by norm_num [particlesTickP0, particleAdvance, cPartA, cPartB])⟩

/-- C8 counterexample: the pacing step accumulates increments instead of
    setting the position to spawn plus a sinusoid. With spawn 0, offset 0 and
    speed 1, ticks at times pi/2 and pi/2 + 2*pi leave the code at x = 2,
    while the claimed form puts x at 1; hence x also leaves the band of
    radius speed = 1 around the spawn position that the claimed form implies. -/
theorem pacing_accumulates_cex :
    pacingStep Real.sin (Real.pi / 2 + 2 * Real.pi) 0 1
      (pacingStep Real.sin (Real.pi / 2) 0 1 0) = 2 ∧
    specPacingX Real.sin 0 (Real.pi / 2 + 2 * Real.pi) 0 1 = 1 ∧
    1 < |pacingStep Real.sin (Real.pi / 2 + 2 * Real.pi) 0 1
      (pacingStep Real.sin (Real.pi / 2) 0 1 0) - 0| := by
  have hinner : pacingStep Real.sin (Real.pi / 2) 0 1 0 = 1 := by
    unfold pacingStep
    rw [add_zero, Real.sin_pi_div_two]
    norm_num
  have houter : pacingStep Real.sin (Real.pi / 2 + 2 * Real.pi) 0 1
      (pacingStep Real.sin (Real.pi / 2) 0 1 0) = 2 := by
    rw [hinner]
    unfold pacingStep
    rw [add_zero, Real.sin_add_two_pi, Real.sin_pi_div_two]
    norm_num
  have hspec : specPacingX Real.sin 0 (Real.pi / 2 + 2 * Real.pi) 0 1 = 1 := by
    unfold specPacingX
    rw [add_zero, Real.sin_add_two_pi, Real.sin_pi_div_two]
    norm_num
  refine ⟨houter, hspec, ?_⟩
  rw [houter, sub_zero, abs_of_pos (by norm_num : (0 : ℝ) < 2)]
  norm_num

/-- C8 (amended): each pacing tick adds sin(time + offset) * speed to x, so
    the displacement of a single tick is bounded by the absolute speed; x is
    not reset to the spawn position and the code keeps no record of it. -/
theorem pacing_step_bound (t o s x : ℝ) :
    pacingStep Real.sin t o s x = x + Real.sin (t + o) * s ∧
    |pacingStep Real.sin t o s x - x| ≤ |s| := by
  refine ⟨rfl, ?_⟩
  have hd : pacingStep Real.sin t o s x - x = Real.sin (t + o) * s := by
    unfold pacingStep
    ring
  rw [hd, abs_mul]
  calc |Real.sin (t + o)| * |s| ≤ 1 * |s| :=
        mul_le_mul_of_nonneg_right (Real.abs_sin_le_one _) (abs_nonneg s)
    _ = |s| := one_mul _

/-- C5: on a failed or malformed provider response, index.tsx installs no
    mission at all (its catch block only logs and clears the loading flag),
    so the game has no playable fallback state there, while part_000 installs
    the deterministic fallback mission SILENT ECHO with its two objectives. -/
theorem mission_fallback_missing :
    generateMission none = none ∧
    generateMissionP0 none = some fallbackMission ∧
    fallbackMission.title = "SILENT ECHO" ∧
    fallbackMission.objectives.length = 2 :=
  ⟨rfl, rfl, rfl, rfl⟩

/-- C9: the deferred chain-reaction callback of index.tsx carries no
    game-state guard: as a function of the game state it is constant, and in
    the terminal success state it still marks a living in-radius entity dead,
    mutating entity state after the game has left playing. -/
theorem chain_callback_unguarded :
    (∀ (gs : GState) (ent : Entity) (es : List Entity),
      chainCallback gs ent es = chainReaction ent es) ∧
    (chainCallback GState.success cBarrel9 [cNear9]).map Entity.isDead = [true] ∧
    cNear9.isDead = false :=
  ⟨fun _ _ _ => rfl,
    by
      norm_num [chainCallback, chainKill, cBarrel9, cNear9]
      rw [if_neg (by decide : ¬("intel-1" = "barrel-1"))],
    rfl⟩

/-- C10: a click received while the game state is not playing leaves the
    whole simulation state unchanged, in index.tsx (early return at line 437)
    and in part_000 (early return at line 301). -/
theorem shoot_noop_when_not_playing (rnd : ℕ → ℚ × ℚ) (w h mx my sx sy : ℚ) (s : SimSt)
    (hgs : s.gameState ≠ GState.playing) :
    handleShoot rnd w h mx my sx sy s = s ∧ handleShootP0 rnd w h mx my sx sy s = s := by
  constructor
  · unfold handleShoot
    rw [if_pos hgs]
  · unfold handleShootP0
    rw [if_pos hgs]

/-- C10 witness: a concrete briefing-screen state is untouched by a click. -/
theorem shoot_noop_when_not_playing_witness :
    cSim.gameState ≠ GState.playing ∧
    handleShoot cRnd 1000 800 500 400 0 0 cSim = cSim ∧
    handleShootP0 cRnd 1000 800 500 400 0 0 cSim = cSim :=
  ⟨by decide,
    (shoot_noop_when_not_playing cRnd 1000 800 500 400 0 0 cSim (by decide)).1,
    (shoot_noop_when_not_playing cRnd 1000 800 500 400 0 0 cSim (by decide)).2⟩
